import Mathlib

/-!
Shallow embedding of the MIDI-PiPy repository (files `MIDIPiPy/main.py` and
`MIDI-PiPy/out.py`) and proofs about its event decoding, rule loading, rule
matching and dispatch behaviour.

The embedding follows the Python 3 semantics of the source: `None < 16`
raises `TypeError`, `map(int, s.split())` is a lazy map object (not a
`list`/`tuple`), and a bare `except:` catches every exception.  External
collaborators (the rtmidi transport, `shlex.split`, `subprocess.Popen`,
the `%`-formatting of command templates and Python's `int()` parser) are
modelled as oracle parameters; everything else is translated directly from
the source.  Machine integers are modelled as `Nat`: every value that the
claims touch (raw MIDI bytes, channels, data bytes, status codes) is a
non-negative integer in the source as well.  Logging and `time.sleep` calls
have no effect on the modelled state and are omitted, except for the
"Unknown status" warning of the loaders, which is recorded because the
loading claims are about it.
-/

namespace MidiPiPy

/-- Python exceptions that the embedded code can raise. -/
inductive PyExc where
  | typeError
  | indexError
  | valueError
  | ioError
  | rtmidiError
deriving DecidableEq

/-- Runtime value stored in the `data` attribute of a `Command` / `MidiTrans`
object after `__init__` ran (main.py lines 80-85 and 99-104).  `pyMap` is the
lazy Python 3 `map(int, data.split())` object: it keeps the raw tokens and is
neither an `int` nor a `list`/`tuple`.  `pyList` is a real Python list of
integers; `__init__` never stores one under Python 3, but `lookup_command`
tests for it, so the embedding keeps the case. -/
inductive PyData where
  | pyNone
  | pyInt (n : Nat)
  | pyList (l : List Nat)
  | pyMap (tokens : List String)
deriving DecidableEq

/-- Raw value of the `data` field of a rule record, as handed to `__init__`
by the YAML layer (which itself is out of scope). -/
inductive DataField where
  | absent
  | int (n : Nat)
  | str (s : String)
  | list (l : List Nat)
deriving DecidableEq

/-- Whitespace in the sense of Python's default `split` and `strip`. -/
def isSpaceChar (c : Char) : Bool := c = ' ' ∨ c = '\t' ∨ c = '\n' ∨ c = '\r'

/-- Tokenizer behind `pySplit`: walks the characters, accumulating the
current token in reverse. -/
def splitTokens : List Char → List Char → List String
  | [], acc => if acc.isEmpty then [] else [String.mk acc.reverse]
  | c :: rest, acc =>
      if isSpaceChar c then
        if acc.isEmpty then splitTokens rest []
        else String.mk acc.reverse :: splitTokens rest []
      else splitTokens rest (c :: acc)

/-- Python `s.split()` with no argument: split on whitespace runs, dropping
empty tokens. -/
def pySplit (s : String) : List String := splitTokens s.data []

/-- ASCII lowercasing of one character, as `str.lower` does on the ASCII
status names used by the config files. -/
def lowerChar (c : Char) : Char :=
  if 65 ≤ c.toNat ∧ c.toNat ≤ 90 then Char.ofNat (c.toNat + 32) else c

def dropLeadingSpaces : List Char → List Char
  | [] => []
  | c :: rest => if isSpaceChar c then dropLeadingSpaces rest else c :: rest

/-- Python `s.strip()`: remove leading and trailing whitespace. -/
def pyStrip (s : String) : String :=
  String.mk (dropLeadingSpaces (dropLeadingSpaces s.data.reverse).reverse)

/-- Python `s.lower()`. -/
def pyLower (s : String) : String := String.mk (s.data.map lowerChar)

def digitVal (c : Char) : Option Nat :=
  if 48 ≤ c.toNat ∧ c.toNat ≤ 57 then some (c.toNat - 48) else Option.none

def parseNatChars : List Char → Nat → Option Nat
  | [], acc => some acc
  | c :: rest, acc =>
      match digitVal c with
      | Option.none => Option.none
      | some d => parseNatChars rest (acc * 10 + d)

/-- Model of Python `int(s)` on strings, restricted to unsigned decimal
literals: `None` on anything that is not all digits. -/
def pyIntOfString (s : String) : Option Nat :=
  if s.data.isEmpty then Option.none else parseNatChars s.data 0

/-- Parsing of the `data` keyword argument in `Command.__init__` and
`MidiTrans.__init__` (main.py lines 80-85): `None` and `int` are stored
as-is, a string (it has a `split` attribute) becomes the lazy
`map(int, data.split())` object, and anything else (e.g. a YAML list)
raises `TypeError("Could not parse 'data' field.")`. -/
def parseData : DataField → Except PyExc PyData
  | DataField.absent => Except.ok PyData.pyNone
  | DataField.int n => Except.ok (PyData.pyInt n)
  | DataField.str s => Except.ok (PyData.pyMap (pySplit s))
  | DataField.list _ => Except.error PyExc.typeError

/-- A rule record for `load_cmdconfig`, i.e. the keyword arguments passed to
`Command.__init__`.  The `status` field is kept as a string: the loader
immediately calls `.strip().lower()` on it, so only string-valued statuses
reach the rest of the loader. -/
structure CmdRecord where
  name : String := ""
  description : String := ""
  status : String := ""
  channel : Option Nat := Option.none
  data : DataField := DataField.absent
  command : Option String := Option.none
deriving DecidableEq

/-- A `Command` object as built by `Command.__init__` (main.py lines 69-85).
Note that the `status` attribute keeps the raw string from the record; the
loader resolves a numeric status separately and never writes it back. -/
structure Command where
  name : String
  description : String
  status : String
  channel : Option Nat
  command : Option String
  data : PyData
deriving DecidableEq

/-- `Command.__init__` (main.py lines 70-85). -/
def commandInit (r : CmdRecord) : Except PyExc Command :=
  match parseData r.data with
  | Except.error e => Except.error e
  | Except.ok d =>
      Except.ok { name := r.name, description := r.description, status := r.status,
                  channel := r.channel, command := r.command, data := d }

/-- A rule record for `load_miditrans`, mirroring `CmdRecord` with
`translation` in place of `command`. -/
structure TransRecord where
  name : String := ""
  description : String := ""
  status : String := ""
  channel : Option Nat := Option.none
  data : DataField := DataField.absent
  translation : Option String := Option.none
deriving DecidableEq

/-- A `MidiTrans` object as built by `MidiTrans.__init__` (main.py lines 88-104). -/
structure MidiTrans where
  name : String
  description : String
  status : String
  channel : Option Nat
  translation : Option String
  data : PyData
deriving DecidableEq

/-- `MidiTrans.__init__` (main.py lines 89-104). -/
def midiTransInit (r : TransRecord) : Except PyExc MidiTrans :=
  match parseData r.data with
  | Except.error e => Except.error e
  | Except.ok d =>
      Except.ok { name := r.name, description := r.description, status := r.status,
                  channel := r.channel, translation := r.translation, data := d }

/-- The channel test of the lookup loops (main.py lines 198-199 and 211-212):
`channel is not None and cmd.channel != channel` makes the loop `continue`,
i.e. skip the rule. -/
def channelSkip (evCh ruleCh : Option Nat) : Bool :=
  evCh.isSome && decide (ruleCh ≠ evCh)

/-- The data cascade of the lookup loops (main.py lines 201-207): the first
branch matches when both event data bytes are absent or the rule carries no
data constraint; the second when the rule data is an `int` equal to `data1`
(Python `int == None` is `False`); the third indexes `cmd.data[0]` and
`cmd.data[1]` on a `list`/`tuple` with Python short-circuiting, so it can
raise `IndexError`, and is `False` for every other value (in particular for
the lazy map object). -/
def ruleDataMatch (d : PyData) (data1 data2 : Option Nat) : Except PyExc Bool :=
  if (data1 = Option.none ∧ data2 = Option.none) ∨ d = PyData.pyNone then
    Except.ok true
  else
    match d with
    | PyData.pyNone => Except.ok true
    | PyData.pyInt n => Except.ok (decide (data1 = some n))
    | PyData.pyList [] => Except.error PyExc.indexError
    | PyData.pyList [v] =>
        if data1 = some v then Except.error PyExc.indexError else Except.ok false
    | PyData.pyList (v1 :: v2 :: _) =>
        Except.ok (decide (data1 = some v1 ∧ data2 = some v2))
    | PyData.pyMap _ => Except.ok false

/-- A status-keyed rule table: a Python dict in insertion order, mapping a
resolved status (possibly `None`, see the loaders) to its bucket. -/
abbrev CmdTable := List (Option Nat × List Command)

abbrev TransTable := List (Option Nat × List MidiTrans)

/-- Python `dict.get(k, [])`. -/
def dictGet {α : Type} (t : List (Option Nat × List α)) (k : Option Nat) : List α :=
  match t with
  | [] => []
  | (k0, v) :: rest => if k0 = k then v else dictGet rest k

/-- Python `dict.setdefault(k, []).append(x)`: appends to the existing bucket,
creating it at the end of the dict when absent. -/
def setdefaultAppend {α : Type} (t : List (Option Nat × List α)) (k : Option Nat) (x : α) :
    List (Option Nat × List α) :=
  match t with
  | [] => [(k, [x])]
  | (k0, v) :: rest =>
      if k0 = k then (k0, v ++ [x]) :: rest else (k0, v) :: setdefaultAppend rest k x

/-- The scan of one bucket in `lookup_command` (main.py lines 197-207):
first rule that passes the channel test and the data cascade is returned;
falling off the loop returns `None`. -/
def lookupList (cmds : List Command) (channel data1 data2 : Option Nat) :
    Except PyExc (Option Command) :=
  match cmds with
  | [] => Except.ok Option.none
  | cmd :: rest =>
      if channelSkip channel cmd.channel then lookupList rest channel data1 data2
      else
        match ruleDataMatch cmd.data data1 data2 with
        | Except.error e => Except.error e
        | Except.ok true => Except.ok (some cmd)
        | Except.ok false => lookupList rest channel data1 data2

/-- The scan of one bucket in `lookup_translation` (main.py lines 210-220),
identical to `lookupList` over `MidiTrans` rules. -/
def lookupTransList (ts : List MidiTrans) (channel data1 data2 : Option Nat) :
    Except PyExc (Option MidiTrans) :=
  match ts with
  | [] => Except.ok Option.none
  | tr :: rest =>
      if channelSkip channel tr.channel then lookupTransList rest channel data1 data2
      else
        match ruleDataMatch tr.data data1 data2 with
        | Except.error e => Except.error e
        | Except.ok true => Except.ok (some tr)
        | Except.ok false => lookupTransList rest channel data1 data2

/-- `MidiInputHandler.lookup_command` (main.py lines 195-207).  The
`lru_cache` decorator memoizes a pure function and is semantically
transparent for a fixed table, so it is not modelled. -/
def lookup_command (t : CmdTable) (status : Nat) (channel data1 data2 : Option Nat) :
    Except PyExc (Option Command) :=
  lookupList (dictGet t (some status)) channel data1 data2

/-- `MidiInputHandler.lookup_translation` (main.py lines 209-220).  No call
site in the source ever invokes it. -/
def lookup_translation (t : TransTable) (status : Nat) (channel data1 data2 : Option Nat) :
    Except PyExc (Option MidiTrans) :=
  lookupTransList (dictGet t (some status)) channel data1 data2

/-- Channel decoding of `__call__` (main.py lines 120-125). -/
def decodeChannel (b : Nat) : Option Nat :=
  if b < 0xF0 then some ((b &&& 0xF) + 1) else Option.none

/-- Status decoding of `__call__` (main.py lines 120-124). -/
def decodeStatus (b : Nat) : Nat :=
  if b < 0xF0 then b &&& 0xF0 else b

/-- Extraction of `data1` (main.py lines 127-131). -/
def decodeData1 (bytes : List Nat) : Option Nat := bytes[1]?

/-- Extraction of `data2` (main.py lines 127-133). -/
def decodeData2 (bytes : List Nat) : Option Nat := bytes[2]?

def modeMsg : List Nat := [0xF0, 0x42, 0x30, 0x00, 0x01, 0x15, 0x4E, 0x00, 0xF7]

def bank1Msg : List Nat := [0xB0, 0x00, 0x00]

def bank2Msg : List Nat := [0xB0, 0x20, 0x03]

def progMsg : List Nat := [0xC0, 0x00]

def noteOnMsg : List Nat := [0x90, 96, 112]

def noteOffMsg : List Nat := [0x80, 96, 0]

def virtualPortName : String := "My virtual output"

/-- Observable actions of one `__call__` invocation on the outside world. -/
inductive OutAction where
  | openPort (n : Nat)
  | sendMsg (msg : List Nat)
  | closePort
  | openVirtualPort (s : String)
  | delMidiout
  | spawnCommand (cmdline : String)
deriving DecidableEq

/-- Environment oracles for the external collaborators used by `__call__`:
whether `midiout.get_ports()` is non-empty, whether a given
`send_message` call succeeds, and the result of `%`-formatting a command
template with `(channel, status, data1, data2)`. -/
structure Env where
  availablePorts : Bool
  sendOk : List Nat → Bool
  fmt : String → Nat → Nat → Option Nat → Option Nat → Except PyExc String

/-- The four `midiout.send_message` calls (main.py lines 163-170): a failing
send raises, skipping the remaining sends (the `time.sleep` calls have no
modelled effect). -/
def sendMessages (env : Env) : List (List Nat) → List OutAction × Except PyExc Unit
  | [] => ([], Except.ok ())
  | m :: rest =>
      if env.sendOk m then
        let p := sendMessages env rest
        (OutAction.sendMsg m :: p.1, p.2)
      else ([], Except.error PyExc.rtmidiError)

/-- The output block of `__call__` (main.py lines 148-175): create the
`MidiOut`, open port 1 when ports exist, send the four fixed messages, close
the port, and `del` the object; with no ports, open a virtual port instead.
There is no `try`/`finally`, so an exception skips everything after it,
including `close_port` and `del`. -/
def emitBlock (env : Env) : List OutAction × Except PyExc Unit :=
  if env.availablePorts then
    let p := sendMessages env [modeMsg, bank1Msg, bank2Msg, progMsg]
    match p.2 with
    | Except.ok _ =>
        (OutAction.openPort 1 :: p.1 ++ [OutAction.closePort, OutAction.delMidiout],
         Except.ok ())
    | Except.error e => (OutAction.openPort 1 :: p.1, Except.error e)
  else
    ([OutAction.openVirtualPort virtualPortName, OutAction.delMidiout], Except.ok ())

/-- `MidiInputHandler.__call__` (main.py lines 116-193) under Python 3,
returning the performed actions and the outcome.  The wallclock accumulator
and the log statements have no effect on the modelled behaviour and are
omitted.  Key points translated from the source: an empty message raises
`IndexError` at `event[0]`; for a system message `channel` is `None`, so the
comparison `channel < 16` raises `TypeError`; the `channel < 16` branch calls
`lookup_command` (not `lookup_translation`), discards the result and runs the
output block; the `channel == 16` branch calls `lookup_command` again,
formats `cmd.command` (formatting `None` raises `TypeError`) and hands the
line to `do_command`.  `handleChannel` is the part of the body reached when
the decoded channel is present (the value `ch`); `handle` below adds the
decoding and the `TypeError` of the absent-channel comparison. -/
def handleChannel (env : Env) (commands : CmdTable) (status ch : Nat)
    (data1 data2 : Option Nat) : List OutAction × Except PyExc Unit :=
  let step1 : List OutAction × Except PyExc Unit :=
    if ch < 16 then
      match lookup_command commands status (some ch) data1 data2 with
      | Except.error e => ([], Except.error e)
      | Except.ok _ => emitBlock env
    else ([], Except.ok ())
  match step1.2 with
  | Except.error e => (step1.1, Except.error e)
  | Except.ok _ =>
      if ch = 16 then
        match lookup_command commands status (some ch) data1 data2 with
        | Except.error e => (step1.1, Except.error e)
        | Except.ok Option.none => (step1.1, Except.ok ())
        | Except.ok (some cmd) =>
            match cmd.command with
            | Option.none => (step1.1, Except.error PyExc.typeError)
            | some tmpl =>
                match env.fmt tmpl ch status data1 data2 with
                | Except.error e => (step1.1, Except.error e)
                | Except.ok cmdline =>
                    (step1.1 ++ [OutAction.spawnCommand cmdline], Except.ok ())
      else (step1.1, Except.ok ())

/-- Entry point of `__call__`: decode the first byte and dispatch.  The
`translations` table is a field of the handler object but is never read by
`__call__`, faithfully to the source. -/
def handle (env : Env) (commands : CmdTable) (translations : TransTable) (bytes : List Nat) :
    List OutAction × Except PyExc Unit :=
  match bytes with
  | [] => ([], Except.error PyExc.indexError)
  | b :: _ =>
      match decodeChannel b with
      | Option.none => ([], Except.error PyExc.typeError)
      | some ch =>
          handleChannel env commands (decodeStatus b) ch
            (decodeData1 bytes) (decodeData2 bytes)

/-- Whether an output port is still held open after the given action trace.
A `del` of the `MidiOut` object is treated as releasing the port (the
CPython destructor closes it), which is generous to the implementation. -/
def portOpenAfter (tr : List OutAction) : Bool :=
  tr.foldl
    (fun st a =>
      match a with
      | OutAction.openPort _ => true
      | OutAction.openVirtualPort _ => true
      | OutAction.closePort => false
      | OutAction.delMidiout => false
      | _ => st)
    false

/-- The outbound messages actually sent in an action trace, in order. -/
def sentMessages (tr : List OutAction) : List (List Nat) :=
  tr.filterMap (fun a =>
    match a with
    | OutAction.sendMsg m => some m
    | _ => Option.none)

/-- Log messages recorded by the loaders. -/
inductive LogMsg where
  | unknownStatus (raw : String)
deriving DecidableEq

/-- The `STATUS_MAP` dict (main.py lines 58-66), with the numeric codes the
named constants carry in `rtmidi.midiconstants`. -/
def STATUS_MAP : List (String × Nat) :=
  [("noteon", 0x90), ("noteoff", 0x80), ("programchange", 0xC0),
   ("controllerchange", 0xB0), ("pitchbend", 0xE0), ("polypressure", 0xA0),
   ("channelpressure", 0xD0)]

/-- Python `STATUS_MAP.get(key)`. -/
def statusMapGet (s : String) : Option Nat :=
  (STATUS_MAP.find? (fun p => decide (p.1 = s))).map (fun p => p.2)

/-- Python `s.strip().lower()` as applied to the raw status field. -/
def pyNormalize (s : String) : String := pyLower (pyStrip s)

/-- Body of the per-record loop of `load_cmdconfig` (main.py lines 237-257)
for a well-formed record (a dict carrying `command`): construct the
`Command` (a `TypeError`/`ValueError` there becomes a fatal `IOError`),
resolve the status via `STATUS_MAP`, and, when that yields `None` and
`int(cmd.status)` also fails, log the "Unknown status ... Ignoring command"
error.  The source then falls through unconditionally to
`self.commands.setdefault(status, []).append(cmd)`: the record is appended
even when the warning was logged, under the unresolved key `None`, and a
successful numeric parse is discarded rather than used as the key.
`intParse` is the oracle for Python's `int()` on strings. -/
def processCmdRecord (intParse : String → Option Nat) (t : CmdTable) (r : CmdRecord) :
    Except PyExc (CmdTable × List LogMsg) :=
  match commandInit r with
  | Except.error _ => Except.error PyExc.ioError
  | Except.ok cmd =>
      let status := statusMapGet (pyNormalize cmd.status)
      let warn :=
        if status = Option.none ∧ intParse cmd.status = Option.none then
          [LogMsg.unknownStatus cmd.status]
        else []
      Except.ok (setdefaultAppend t status cmd, warn)

/-- The record loop of `load_cmdconfig`, threading the table and collecting
the warnings. -/
def loadCmdLoop (intParse : String → Option Nat) (t : CmdTable) (logs : List LogMsg) :
    List CmdRecord → Except PyExc (CmdTable × List LogMsg)
  | [] => Except.ok (t, logs)
  | r :: rest =>
      match processCmdRecord intParse t r with
      | Except.error e => Except.error e
      | Except.ok (t2, w) => loadCmdLoop intParse t2 (logs ++ w) rest

/-- `MidiInputHandler.load_cmdconfig` (main.py lines 230-257), past the file
existence check and the YAML parse, both out of scope. -/
def load_cmdconfig (intParse : String → Option Nat) (records : List CmdRecord) :
    Except PyExc (CmdTable × List LogMsg) :=
  loadCmdLoop intParse [] [] records

/-- Body of the per-record loop of `load_miditrans` (main.py lines 266-286),
mirroring `processCmdRecord` over `MidiTrans` records. -/
def processTransRecord (intParse : String → Option Nat) (t : TransTable) (r : TransRecord) :
    Except PyExc (TransTable × List LogMsg) :=
  match midiTransInit r with
  | Except.error _ => Except.error PyExc.ioError
  | Except.ok tr =>
      let status := statusMapGet (pyNormalize tr.status)
      let warn :=
        if status = Option.none ∧ intParse tr.status = Option.none then
          [LogMsg.unknownStatus tr.status]
        else []
      Except.ok (setdefaultAppend t status tr, warn)

/-- The record loop of `load_miditrans`. -/
def loadTransLoop (intParse : String → Option Nat) (t : TransTable) (logs : List LogMsg) :
    List TransRecord → Except PyExc (TransTable × List LogMsg)
  | [] => Except.ok (t, logs)
  | r :: rest =>
      match processTransRecord intParse t r with
      | Except.error e => Except.error e
      | Except.ok (t2, w) => loadTransLoop intParse t2 (logs ++ w) rest

/-- `MidiInputHandler.load_miditrans` (main.py lines 259-286). -/
def load_miditrans (intParse : String → Option Nat) (records : List TransRecord) :
    Except PyExc (TransTable × List LogMsg) :=
  loadTransLoop intParse [] [] records

/-- Outcome of one `do_command` invocation. -/
inductive CmdOutcome where
  | spawned (args : List String)
  | failureLogged (e : PyExc)
deriving DecidableEq

/-- `MidiInputHandler.do_command` (main.py lines 222-228): `shlex.split` and
`subprocess.Popen` (the `tokenize` and `spawn` oracles) run inside a bare
`try`/`except` that catches every exception and logs it; the spawned process
is not waited on, so `spawn` returns as soon as process creation finishes. -/
def do_command (tokenize : String → Except PyExc (List String))
    (spawn : List String → Except PyExc Unit) (cmdline : String) :
    Except PyExc CmdOutcome :=
  match tokenize cmdline with
  | Except.error e => Except.ok (CmdOutcome.failureLogged e)
  | Except.ok args =>
      match spawn args with
      | Except.error e => Except.ok (CmdOutcome.failureLogged e)
      | Except.ok _ => Except.ok (CmdOutcome.spawned args)

/-- Data shapes that `Command.__init__` / `MidiTrans.__init__` can actually
produce under Python 3: a real `list`/`tuple` is never stored. -/
def loadedShape : PyData → Bool
  | PyData.pyList _ => false
  | _ => true

/-- An environment with ports available, every send succeeding, and trivial
template formatting. -/
def envOK : Env :=
  { availablePorts := true, sendOk := fun _ => true,
    fmt := fun tmpl _ _ _ _ => Except.ok tmpl }

/-- An environment with ports available in which every send fails. -/
def envSendFails : Env :=
  { availablePorts := true, sendOk := fun _ => false,
    fmt := fun tmpl _ _ _ _ => Except.ok tmpl }

/-- The action trace of a fully successful run of the output block. -/
def fullEmitTrace : List OutAction :=
  [OutAction.openPort 1, OutAction.sendMsg modeMsg, OutAction.sendMsg bank1Msg,
   OutAction.sendMsg bank2Msg, OutAction.sendMsg progMsg, OutAction.closePort,
   OutAction.delMidiout]

/-- A rule whose selector carries no channel constraint and no data constraint. -/
def cmdNoChannel : Command :=
  { name := "nochan", description := "", status := "controllerchange",
    channel := Option.none, command := Option.none, data := PyData.pyNone }

/-- Theorem C7: decoding is as claimed — a first byte below `0xF0` yields
`channel = (b AND 0x0F) + 1`, which lies in `[1, 16]`, and
`status = b AND 0xF0`; a first byte at least `0xF0` yields an absent channel
and `status = b`; `data1` is the second byte when the message has at least
two bytes and absent otherwise, and `data2` likewise with the third byte. -/
theorem C7_decode_correct (b d1 d2 : Nat) (rest : List Nat) :
    (b < 0xF0 →
      decodeChannel b = some ((b &&& 0xF) + 1) ∧
      1 ≤ (b &&& 0xF) + 1 ∧ (b &&& 0xF) + 1 ≤ 16 ∧
      decodeStatus b = b &&& 0xF0) ∧
    (0xF0 ≤ b → decodeChannel b = Option.none ∧ decodeStatus b = b) ∧
    decodeData1 [b] = Option.none ∧ decodeData2 [b] = Option.none ∧
    decodeData1 [b, d1] = some d1 ∧ decodeData2 [b, d1] = Option.none ∧
    decodeData1 (b :: d1 :: d2 :: rest) = some d1 ∧
    decodeData2 (b :: d1 :: d2 :: rest) = some d2 := by
  refine ⟨fun h => ⟨?_, ?_, ?_, ?_⟩, fun h => ⟨?_, ?_⟩, rfl, rfl, rfl, rfl, ?_, ?_⟩
  · simp [decodeChannel, h]
  · exact Nat.succ_le_succ (Nat.zero_le _)
  · exact Nat.succ_le_succ Nat.and_le_right
  · simp [decodeStatus, h]
  · simp [decodeChannel, Nat.not_lt.mpr h]
  · simp [decodeStatus, Nat.not_lt.mpr h]
  · simp [decodeData1]
  · simp [decodeData2]

/-- Witness for C7 at the concrete first bytes `0x93` (note-on, channel 4)
and `0xF8` (system real-time). -/
theorem C7_decode_correct_witness :
    (decodeChannel 0x93 = some 4 ∧ decodeStatus 0x93 = 0x90) ∧
    (decodeChannel 0xF8 = Option.none ∧ decodeStatus 0xF8 = 0xF8) := by
  have h1 := (C7_decode_correct 0x93 0 0 []).1 (by decide)
  have h2 := (C7_decode_correct 0xF8 0 0 []).2.1 (by decide)
  refine ⟨⟨?_, ?_⟩, h2.1, h2.2⟩
  · rw [h1.1]; decide
  · rw [h1.2.2.2]; decide

/-- Counterexample to C1: the event has channel 1 and the single rule in the
bucket has no channel constraint and unconstrained data, so per the claim the
rule must remain a candidate and match; but the loop's test
`channel is not None and cmd.channel != channel` is true (`None != 1`), the
rule is skipped on channel grounds and the lookup returns `None`. -/
theorem C1_counterexample :
    channelSkip (some 1) Option.none = true ∧
    lookupList [cmdNoChannel] (some 1) Option.none Option.none =
      Except.ok Option.none := by
  exact ⟨rfl, rfl⟩

/-- Theorem for C1 as amended: for an event with a present channel, a rule
passes the channel test exactly when its `channel` field equals the event
channel; in particular every rule with no channel constraint is skipped on
channel grounds, so a bucket holding only such a rule yields no match
whatever the data bytes are. -/
theorem C1_amended_channel_skip (ch : Nat) (rCh : Option Nat) (cmd : Command)
    (hc : cmd.channel = Option.none) (d1 d2 : Option Nat) :
    (channelSkip (some ch) rCh = false ↔ rCh = some ch) ∧
    lookupList [cmd] (some ch) d1 d2 = Except.ok Option.none := by
  constructor
  · simp [channelSkip]
  · simp [lookupList, channelSkip, hc]

/-- Witness for the amended C1 at channel 1. -/
theorem C1_amended_channel_skip_witness :
    (channelSkip (some 1) (some 1) = false ↔ some 1 = some 1) ∧
    lookupList [cmdNoChannel] (some 1) (some 60) (some 100) =
      Except.ok Option.none :=
  C1_amended_channel_skip 1 (some 1) cmdNoChannel (by decide) (some 60) (some 100)

/-- Theorem for C4 (code bug): on the system message `[0xF8]` the decoded
channel is absent, and `__call__` then evaluates `channel < 16`, which under
Python 3 raises `TypeError` — handling the event is not a no-op. -/
theorem C4_system_message_raises :
    decodeChannel 0xF8 = Option.none ∧
    handle envOK [] [] [0xF8] = ([], Except.error PyExc.typeError) := by
  constructor
  · decide
  · rfl

/-- A translation rule that matches note-on events on channel 1. -/
def transNoteOnCh1 : MidiTrans :=
  { name := "t", description := "", status := "noteon", channel := some 1,
    translation := Option.none, data := PyData.pyNone }

/-- Theorem for C2 (code bug): on the note-on event `[0x90, 60, 100]`
(channel 1) with an empty Command table — so no rule matches anywhere — and a
Translation table containing a rule matching the event, `__call__` still
emits the fixed output sequence, and the result is identical with the
Translation table empty: the dispatcher consults `lookup_command` over the
Command table, never `lookup_translation`, and its behaviour is independent
of the Translation table altogether. -/
theorem C2_dispatch_ignores_translations :
    handle envOK [] [(some 0x90, [transNoteOnCh1])] [0x90, 60, 100]
      = (fullEmitTrace, Except.ok ()) ∧
    handle envOK [] [] [0x90, 60, 100] = (fullEmitTrace, Except.ok ()) ∧
    (∀ (env : Env) (c : CmdTable) (t1 t2 : TransTable) (bs : List Nat),
      handle env c t1 bs = handle env c t2 bs) := by
  exact ⟨rfl, rfl, fun env c t1 t2 bs => rfl⟩

def pairDataStr : String := "1 2"

/-- The rule record of C3's scenario: its `data` field is the two-element
sequence "1 2". -/
def pairCmdRecord : CmdRecord :=
  { name := "pair", status := "controllerchange", channel := some 16,
    data := DataField.str pairDataStr, command := Option.none }

/-- The `Command` object that `Command.__init__` builds from
`pairCmdRecord` under Python 3: the `data` attribute is the lazy map
object. -/
def pairCmdObj : Command :=
  { name := "pair", description := "", status := "controllerchange",
    channel := some 16, command := Option.none,
    data := PyData.pyMap (pySplit pairDataStr) }

/-- Theorem for C3 (code bug): the pair clause of the matcher does behave as
claimed on a genuine two-element list — it matches exactly when
`(data1, data2) = (v1, v2)` — but under Python 3 loading a rule whose `data`
field is the two-element sequence "1 2" stores a lazy `map` object, which
fails the `isinstance(..., (list, tuple))` test, so the loaded rule does not
match the event with `(data1, data2) = (1, 2)`. -/
theorem C3_pair_selector_defeated_by_map :
    ruleDataMatch (PyData.pyList [1, 2]) (some 1) (some 2) = Except.ok true ∧
    ruleDataMatch (PyData.pyList [1, 2]) (some 1) (some 3) = Except.ok false ∧
    ruleDataMatch (PyData.pyList [1, 2]) (some 2) (some 2) = Except.ok false ∧
    commandInit pairCmdRecord = Except.ok pairCmdObj ∧
    lookupList [pairCmdObj] (some 16) (some 1) (some 2) =
      Except.ok Option.none := by
  exact ⟨rfl, rfl, rfl, rfl, rfl⟩

/-- A well-formed translation record whose status resolves symbolically. -/
def goodTransRec : TransRecord :=
  { name := "good", status := "controllerchange", channel := some 16,
    data := DataField.int 14, translation := Option.none }

/-- A translation record whose status resolves neither symbolically nor
numerically. -/
def bogusTransRec : TransRecord :=
  { name := "bad", status := "bogus", channel := some 16,
    data := DataField.absent, translation := Option.none }

/-- A translation record whose status is unresolved symbolically but parses
numerically. -/
def numericTransRec : TransRecord :=
  { name := "num", status := "176", channel := some 16,
    data := DataField.absent, translation := Option.none }

/-- The `MidiTrans` object built from `goodTransRec`. -/
def goodTransObj : MidiTrans :=
  { name := "good", description := "", status := "controllerchange",
    channel := some 16, translation := Option.none, data := PyData.pyInt 14 }

/-- The `MidiTrans` object built from `bogusTransRec`. -/
def bogusTransObj : MidiTrans :=
  { name := "bad", description := "", status := "bogus", channel := some 16,
    translation := Option.none, data := PyData.pyNone }

/-- The `MidiTrans` object built from `numericTransRec`. -/
def numericTransObj : MidiTrans :=
  { name := "num", description := "", status := "176", channel := some 16,
    translation := Option.none, data := PyData.pyNone }

def bogusStr : String := "bogus"

/-- Theorem for C5 (code bug): loading a valid record followed by one whose
status resolves neither symbolically nor numerically logs the
"Unknown status ... Ignoring command" error but then appends the offending
rule anyway, under the unresolved key `None` — the rule is not dropped as the
claim states (the valid rule is retained normally).  Moreover a record whose
status is unresolved symbolically but parses numerically is also filed under
`None`: the fallback `int(...)` result is discarded, never used as the
bucket key. -/
theorem C5_unresolved_status_still_appended :
    load_miditrans pyIntOfString [goodTransRec, bogusTransRec] =
      Except.ok
        ([(some 0xB0, [goodTransObj]), (Option.none, [bogusTransObj])],
         [LogMsg.unknownStatus bogusStr]) ∧
    load_miditrans pyIntOfString [numericTransRec] =
      Except.ok ([(Option.none, [numericTransObj])], []) := by
  exact ⟨rfl, rfl⟩

def tokenizeWhole : String → Except PyExc (List String) := fun s => Except.ok [s]

def spawnAlwaysOk : List String → Except PyExc Unit := fun _ => Except.ok ()

def echoStr : String := "echo hi"

/-- Theorem C8: `do_command` never propagates an exception — for every
behaviour of the tokenizer and of process creation it returns normally,
yielding the spawned argument vector exactly when both steps succeed and a
logged failure whenever either step raises. -/
theorem C8_do_command_never_raises
    (tokenize : String → Except PyExc (List String))
    (spawn : List String → Except PyExc Unit) (cmdline : String) :
    (∃ out, do_command tokenize spawn cmdline = Except.ok out) ∧
    (∀ args, tokenize cmdline = Except.ok args → spawn args = Except.ok () →
      do_command tokenize spawn cmdline = Except.ok (CmdOutcome.spawned args)) ∧
    (∀ e, tokenize cmdline = Except.error e →
      do_command tokenize spawn cmdline = Except.ok (CmdOutcome.failureLogged e)) ∧
    (∀ args e, tokenize cmdline = Except.ok args → spawn args = Except.error e →
      do_command tokenize spawn cmdline = Except.ok (CmdOutcome.failureLogged e)) := by
  refine ⟨?_, ?_, ?_, ?_⟩
  · cases htok : tokenize cmdline with
    | error e => exact ⟨CmdOutcome.failureLogged e, by simp [do_command, htok]⟩
    | ok args =>
        cases hsp : spawn args with
        | error e =>
            exact ⟨CmdOutcome.failureLogged e, by simp [do_command, htok, hsp]⟩
        | ok u => exact ⟨CmdOutcome.spawned args, by simp [do_command, htok, hsp]⟩
  · intro args h1 h2
    simp [do_command, h1, h2]
  · intro e h1
    simp [do_command, h1]
  · intro args e h1 h2
    simp [do_command, h1, h2]

/-- Witness for C8 with a tokenizer that returns the whole line and a spawn
that always succeeds. -/
theorem C8_do_command_never_raises_witness :
    do_command tokenizeWhole spawnAlwaysOk echoStr =
      Except.ok (CmdOutcome.spawned [echoStr]) :=
  (C8_do_command_never_raises tokenizeWhole spawnAlwaysOk echoStr).2.1
    [echoStr] rfl rfl

/-- Boolean form of the data cascade, agreeing with `ruleDataMatch` on every
data shape that loading can produce. -/
def dataMatchB (d : PyData) (d1 d2 : Option Nat) : Bool :=
  if (d1 = Option.none ∧ d2 = Option.none) ∨ d = PyData.pyNone then true
  else
    match d with
    | PyData.pyInt n => decide (d1 = some n)
    | PyData.pyList (v1 :: v2 :: _) => decide (d1 = some v1 ∧ d2 = some v2)
    | _ => false

/-- The per-rule predicate of the lookup loop: pass the channel test and the
data cascade. -/
def matchesB (ch d1 d2 : Option Nat) (cmd : Command) : Bool :=
  !channelSkip ch cmd.channel && dataMatchB cmd.data d1 d2

theorem ruleDataMatch_eq_ok (d : PyData) (d1 d2 : Option Nat)
    (h : loadedShape d = true) :
    ruleDataMatch d d1 d2 = Except.ok (dataMatchB d d1 d2) := by
  cases d with
  | pyList l => simp [loadedShape] at h
  | pyNone => simp [ruleDataMatch, dataMatchB]
  | pyInt n =>
      by_cases hD : d1 = Option.none ∧ d2 = Option.none
      · simp [ruleDataMatch, dataMatchB, hD]
      · simp [ruleDataMatch, dataMatchB, hD]
  | pyMap tk =>
      by_cases hD : d1 = Option.none ∧ d2 = Option.none
      · simp [ruleDataMatch, dataMatchB, hD]
      · simp [ruleDataMatch, dataMatchB, hD]

theorem lookupList_eq_find (cmds : List Command) (ch d1 d2 : Option Nat)
    (h : ∀ c ∈ cmds, loadedShape c.data = true) :
    lookupList cmds ch d1 d2 = Except.ok (cmds.find? (matchesB ch d1 d2)) := by
  induction cmds with
  | nil => rfl
  | cons c rest ih =>
      have hc : loadedShape c.data = true := h c (List.mem_cons_self c rest)
      have hrest : ∀ x ∈ rest, loadedShape x.data = true :=
        fun x hx => h x (List.mem_cons_of_mem c hx)
      by_cases hskip : channelSkip ch c.channel = true
      · have hm : matchesB ch d1 d2 c = false := by simp [matchesB, hskip]
        simp [lookupList, hskip, hm, ih hrest]
      · have hns : channelSkip ch c.channel = false := by simpa using hskip
        cases hB : dataMatchB c.data d1 d2 with
        | true =>
            have hm : matchesB ch d1 d2 c = true := by simp [matchesB, hns, hB]
            simp [lookupList, hns, ruleDataMatch_eq_ok c.data d1 d2 hc, hB, hm]
        | false =>
            have hm : matchesB ch d1 d2 c = false := by simp [matchesB, hB]
            simp [lookupList, hns, ruleDataMatch_eq_ok c.data d1 d2 hc, hB, hm,
              ih hrest]

theorem find_first_characterization {α : Type} (p : α → Bool) (l : List α)
    (a : α) (h : l.find? p = some a) :
    ∃ i : Nat, l[i]? = some a ∧ p a = true ∧
      ∀ j : Nat, j < i → ∀ c, l[j]? = some c → p c = false := by
  induction l with
  | nil => simp at h
  | cons x xs ih =>
      by_cases hx : p x = true
      · rw [List.find?_cons_of_pos _ hx] at h
        have hxa : x = a := by injection h
        subst hxa
        exact ⟨0, by simp, hx, fun j hj c hc => absurd hj (Nat.not_lt_zero j)⟩
      · have hx2 : p x = false := by simpa using hx
        rw [List.find?_cons_of_neg _ (by simp [hx2])] at h
        obtain ⟨i, h1, h2, h3⟩ := ih h
        refine ⟨i + 1, by simpa using h1, h2, ?_⟩
        intro j hj c hc
        cases j with
        | zero =>
            rw [List.getElem?_cons_zero] at hc
            have hxc : x = c := by injection hc
            rw [← hxc]
            exact hx2
        | succ j2 =>
            exact h3 j2 (Nat.lt_of_succ_lt_succ hj) c (by simpa using hc)

/-- Theorem C6: the matcher scans the status bucket in declaration order —
when a rule is returned it is a member of the bucket, it matches, and every
rule placed before it in the bucket does not match; and `None` is returned
exactly when no rule in the bucket matches.  The rule data are restricted to
the shapes `__init__` can produce, which also makes every lookup return
normally. -/
theorem C6_first_match_wins (t : CmdTable) (status : Nat) (ch d1 d2 : Option Nat)
    (hload : ∀ c ∈ dictGet t (some status), loadedShape c.data = true) :
    (∀ r, lookup_command t status ch d1 d2 = Except.ok (some r) →
      ∃ i : Nat, (dictGet t (some status))[i]? = some r ∧
        matchesB ch d1 d2 r = true ∧
        ∀ j : Nat, j < i → ∀ c, (dictGet t (some status))[j]? = some c →
          matchesB ch d1 d2 c = false) ∧
    (lookup_command t status ch d1 d2 = Except.ok Option.none ↔
      ∀ c ∈ dictGet t (some status), matchesB ch d1 d2 c = false) := by
  constructor
  · intro r hr
    rw [lookup_command, lookupList_eq_find _ _ _ _ hload] at hr
    have hfind : (dictGet t (some status)).find? (matchesB ch d1 d2) = some r := by
      injection hr
    exact find_first_characterization _ _ _ hfind
  · rw [lookup_command, lookupList_eq_find _ _ _ _ hload]
    simp [List.find?_eq_none]

/-- First rule of the C6 witness bucket; both rules match the lookup used in
the witness. -/
def cmdA : Command :=
  { name := "A", description := "", status := "controllerchange",
    channel := some 16, command := Option.none, data := PyData.pyNone }

/-- Second rule of the C6 witness bucket. -/
def cmdB : Command :=
  { name := "B", description := "", status := "controllerchange",
    channel := some 16, command := Option.none, data := PyData.pyNone }

def tableAB : CmdTable := [(some 0xB0, [cmdA, cmdB])]

/-- Witness for C6 on a concrete two-rule bucket in which both rules match. -/
theorem C6_first_match_wins_witness :
    (∀ r, lookup_command tableAB 0xB0 (some 16) (some 14) (some 3) =
        Except.ok (some r) →
      ∃ i : Nat, (dictGet tableAB (some 0xB0))[i]? = some r ∧
        matchesB (some 16) (some 14) (some 3) r = true ∧
        ∀ j : Nat, j < i → ∀ c, (dictGet tableAB (some 0xB0))[j]? = some c →
          matchesB (some 16) (some 14) (some 3) c = false) ∧
    (lookup_command tableAB 0xB0 (some 16) (some 14) (some 3) =
        Except.ok Option.none ↔
      ∀ c ∈ dictGet tableAB (some 0xB0),
        matchesB (some 16) (some 14) (some 3) c = false) :=
  C6_first_match_wins tableAB 0xB0 (some 16) (some 14) (some 3) (by decide)

theorem handle_cons_lt16 (env : Env) (cmds : CmdTable) (t : TransTable)
    (b : Nat) (rest : List Nat)
    (hb : b < 0xF0) (hch : (b &&& 0xF) + 1 < 16)
    (hports : env.availablePorts = true)
    (hsend : ∀ m, env.sendOk m = true)
    (hload : ∀ c ∈ dictGet cmds (some (decodeStatus b)), loadedShape c.data = true) :
    handle env cmds t (b :: rest) = (fullEmitTrace, Except.ok ()) := by
  have hchan : decodeChannel b = some ((b &&& 0xF) + 1) := by
    simp [decodeChannel, hb]
  have hlk := lookupList_eq_find (dictGet cmds (some (decodeStatus b)))
      (some ((b &&& 0xF) + 1)) (decodeData1 (b :: rest)) (decodeData2 (b :: rest))
      hload
  have hemit : emitBlock env = (fullEmitTrace, Except.ok ()) := by
    simp [emitBlock, hports, sendMessages, hsend, fullEmitTrace]
  show (match decodeChannel b with
      | Option.none => ([], Except.error PyExc.typeError)
      | some ch =>
          handleChannel env cmds (decodeStatus b) ch
            (decodeData1 (b :: rest)) (decodeData2 (b :: rest)))
    = (fullEmitTrace, Except.ok ())
  rw [hchan]
  simp [handleChannel, lookup_command, hlk, hemit, hch, Nat.ne_of_lt hch]

/-- Counterexample to C9: with a port available and the first send failing,
the exception propagates out of `__call__` (there is no `try`/`finally`
around the sends), `close_port` is skipped, and the output port is left held
open after the event — refuting the claim that the port is released on every
exit path including a failure during a send. -/
theorem C9_counterexample :
    handle envSendFails [] [] [0x90, 60, 100]
      = ([OutAction.openPort 1], Except.error PyExc.rtmidiError) ∧
    portOpenAfter (handle envSendFails [] [] [0x90, 60, 100]).1 = true := by
  exact ⟨rfl, rfl⟩

/-- Theorem for C9 as amended: on the output-emission path with a physical
port available, when every send succeeds the port is opened immediately
before the four sends and closed immediately after them, and after handling
the event the port is not held open; the scoped-release guarantee on failing
sends does not hold (see the counterexample). -/
theorem C9_amended_port_scoped (env : Env) (cmds : CmdTable) (t : TransTable)
    (b : Nat) (rest : List Nat)
    (hb : b < 0xF0) (hch : (b &&& 0xF) + 1 < 16)
    (hports : env.availablePorts = true)
    (hsend : ∀ m, env.sendOk m = true)
    (hload : ∀ c ∈ dictGet cmds (some (decodeStatus b)), loadedShape c.data = true) :
    handle env cmds t (b :: rest) = (fullEmitTrace, Except.ok ()) ∧
    portOpenAfter (handle env cmds t (b :: rest)).1 = false := by
  have h := handle_cons_lt16 env cmds t b rest hb hch hports hsend hload
  refine ⟨h, ?_⟩
  rw [h]
  rfl

/-- Witness for the amended C9 on a note-on event with all sends succeeding. -/
theorem C9_amended_port_scoped_witness :
    handle envOK [] [] [0x90, 60, 100] = (fullEmitTrace, Except.ok ()) ∧
    portOpenAfter (handle envOK [] [] [0x90, 60, 100]).1 = false :=
  C9_amended_port_scoped envOK [] [] 0x90 [60, 100] (by decide) (by decide) rfl
    (fun m => rfl) (by simp [dictGet])

/-- Theorem C10: any two events whose decoded channel is present and below
16, handled with a port available and all sends succeeding, produce the
identical outbound byte sequence — the fixed four messages (mode-select
sysex, bank-select 0, bank-select 0x20/3, program-change) in that order —
independently of the events' status and data bytes, of the rule tables and
of whether any rule matched. -/
theorem C10_fixed_output_for_all_events (env : Env) (cmds1 cmds2 : CmdTable)
    (t1 t2 : TransTable) (b1 b2 : Nat) (r1 r2 : List Nat)
    (hb1 : b1 < 0xF0) (hch1 : (b1 &&& 0xF) + 1 < 16)
    (hb2 : b2 < 0xF0) (hch2 : (b2 &&& 0xF) + 1 < 16)
    (hports : env.availablePorts = true)
    (hsend : ∀ m, env.sendOk m = true)
    (hload1 : ∀ c ∈ dictGet cmds1 (some (decodeStatus b1)), loadedShape c.data = true)
    (hload2 : ∀ c ∈ dictGet cmds2 (some (decodeStatus b2)), loadedShape c.data = true) :
    sentMessages (handle env cmds1 t1 (b1 :: r1)).1
      = [modeMsg, bank1Msg, bank2Msg, progMsg] ∧
    sentMessages (handle env cmds1 t1 (b1 :: r1)).1
      = sentMessages (handle env cmds2 t2 (b2 :: r2)).1 := by
  have e1 := handle_cons_lt16 env cmds1 t1 b1 r1 hb1 hch1 hports hsend hload1
  have e2 := handle_cons_lt16 env cmds2 t2 b2 r2 hb2 hch2 hports hsend hload2
  rw [e1, e2]
  exact ⟨rfl, rfl⟩

/-- Witness for C10 on a three-byte note-on (channel 1) and a one-byte
channel-pressure message (channel 6). -/
theorem C10_fixed_output_for_all_events_witness :
    sentMessages (handle envOK [] [] [0x90, 60, 100]).1
      = [modeMsg, bank1Msg, bank2Msg, progMsg] ∧
    sentMessages (handle envOK [] [] [0x90, 60, 100]).1
      = sentMessages (handle envOK [] [] [0xD5]).1 :=
  C10_fixed_output_for_all_events envOK [] [] [] [] 0x90 0xD5 [60, 100] []
    (by decide) (by decide) (by decide) (by decide) rfl (fun m => rfl)
    (by simp [dictGet]) (by simp [dictGet])

end MidiPiPy
